import Mathlib

/-!
Verification of the `TrainerKit` orchestration class of `nmtlab/trainers/base.py`.

Shallow embedding conventions:
* real-valued quantities (losses, BLEU scores, clip thresholds) are modelled as `ℚ`;
* epoch/step counters and batch counts are `ℕ`;
* the model, optimizer and scheduler are external collaborators: their state is
  modelled as opaque snapshots (`List ℚ`), and external numeric routines
  (`torch`'s Euclidean norm, `nmtlab.utils.smoothed_bleu`, the per-batch model
  outputs consumed by `run_valid`) are passed in as function parameters;
* Python exceptions (`ZeroDivisionError` from `%` or `/` with zero divisor,
  `AssertionError` from `assert`, file errors from `torch.load`) are modelled
  with `Except` / an explicit error component — a raising call still returns the
  object state as mutated up to the point of the raise, matching Python
  attribute-assignment semantics;
* `torch.save` / `torch.load` act on a modelled disk: an association list from
  path to checkpoint record, most recent write first.
-/

namespace Nmtlab

/-- Python exceptions that the embedded code paths can raise. -/
inductive PyErr where
  | zeroDivision
  | assertionError
  | fileError
  deriving DecidableEq, Repr

/-- The checkpoint record written by `TrainerKit.save`:
`{"epoch": epoch, "step": step, "model_state": ..., "optimizer_state": ...}`. -/
structure Checkpoint where
  epoch : ℕ
  step : ℕ
  model_state : List ℚ
  optimizer_state : List ℚ
  deriving DecidableEq, Repr

/-- The mutable attributes of a `TrainerKit` object that the verified methods
touch, together with the modelled disk that `torch.save`/`torch.load` access. -/
structure TrainerState where
  best_criteria : ℚ
  current_epoch : ℕ
  current_step : ℕ
  save_path : Option String
  clip_norm : ℚ
  n_valid_per_epoch : ℕ
  criteria : String
  valid_freq : ℕ
  n_train_batch : ℕ
  model_state : List ℚ
  optimizer_state : List ℚ
  disk : List (String × Checkpoint)
  deriving DecidableEq, Repr

/-- Read the checkpoint most recently written at `p` (the modelled `torch.load`). -/
def diskRead (d : List (String × Checkpoint)) (p : String) : Option Checkpoint :=
  (d.find? (fun e => e.1 = p)).map (fun e => e.2)

namespace TrainerKit

/-- `TrainerKit.save(self, epoch, step)`: writes
`{epoch, step, model_state, optimizer_state}` to `self._save_path` when the
path is set, and is a no-op on the checkpoint file otherwise.  (The sidecar
`.log` text file is pure I/O and carries no trainer state; it is not modelled.) -/
def save (s : TrainerState) (epoch step : ℕ) : TrainerState :=
  match s.save_path with
  | none => s
  | some p =>
      { s with disk := (p, ⟨epoch, step, s.model_state, s.optimizer_state⟩) :: s.disk }

/-- `TrainerKit.load(self, model_path=None)`: reads the checkpoint at
`model_path` (defaulting to `self._save_path`), restores model and optimizer
state and the step/epoch counters.  `torch.load` on a missing file or a `None`
path raises, in which case no attribute is mutated. -/
def load (s : TrainerState) (model_path : Option String) : Except PyErr TrainerState :=
  let path? := match model_path with
    | some p => some p
    | none => s.save_path
  match path? with
  | none => .error .fileError
  | some p =>
      match diskRead s.disk p with
      | none => .error .fileError
      | some ck =>
          .ok { s with
                model_state := ck.model_state
                optimizer_state := ck.optimizer_state
                current_step := ck.step
                current_epoch := ck.epoch }

/-- `TrainerKit.check_improvement(self, score_map)`: reads the configured
criteria key; if the value improves on `self._best_criteria` by more than a
0.1% relative margin, updates `_best_criteria`, saves a checkpoint with the
literal arguments `(0, 0)`, and returns `True`; otherwise returns `False`.
The score map (a dict of floats after `run_valid`'s averaging) is modelled as
a total function on keys. -/
def check_improvement (s : TrainerState) (score_map : String → ℚ) :
    TrainerState × Bool :=
  let cri := score_map s.criteria
  if cri < s.best_criteria - |s.best_criteria| * (1 / 1000) then
    (save { s with best_criteria := cri } 0 0, true)
  else
    (s, false)

/-- `TrainerKit.configure(self, save_path=None, clip_norm=5, n_valid_per_epoch=10,
criteria="bleu")`.  Attribute assignments happen in source order, so the state
is mutated even when a later line raises: the division computing
`self._valid_freq` raises `ZeroDivisionError` when `n_valid_per_epoch` is 0
(leaving `_valid_freq` unassigned), and the final `assert` raises
`AssertionError` when `criteria` is neither `"bleu"` nor `"loss"` (with every
field already overwritten).  The result pairs the mutated state with the
exception, if any. -/
def configure (s : TrainerState) (save_path : Option String) (clip_norm : ℚ)
    (n_valid_per_epoch : ℕ) (criteria : String) :
    TrainerState × Option PyErr :=
  let s1 := { s with
              save_path := save_path
              clip_norm := clip_norm
              n_valid_per_epoch := n_valid_per_epoch
              criteria := criteria }
  if n_valid_per_epoch = 0 then
    (s1, some .zeroDivision)
  else
    let s2 := { s1 with valid_freq := s.n_train_batch / n_valid_per_epoch }
    if criteria = "bleu" ∨ criteria = "loss" then
      (s2, none)
    else
      (s2, some .assertionError)

/-- `TrainerKit.__init__` (single-device path): sets `_best_criteria = 65535`,
captures the dataset's batch count, applies the default configuration
(`configure()` with all defaults), and zeroes the epoch/step counters.  The
model/optimizer snapshots stand in for the externally supplied collaborators;
logging and CUDA placement are I/O only and not modelled. -/
def init (n_train_batch : ℕ) (model_state optimizer_state : List ℚ) :
    TrainerState :=
  let s0 : TrainerState :=
    { best_criteria := 65535
      current_epoch := 0
      current_step := 0
      save_path := none
      clip_norm := 5
      n_valid_per_epoch := 10
      criteria := "bleu"
      valid_freq := 0
      n_train_batch := n_train_batch
      model_state := model_state
      optimizer_state := optimizer_state
      disk := [] }
  let s1 := (configure s0 none 5 10 "bleu").1
  { s1 with current_epoch := 0, current_step := 0 }

/-- `TrainerKit.valid(self)` (single-device path): evaluates
`(self._current_step + 1) % self._valid_freq == 0 and self._is_root_node()`;
the modulus raises `ZeroDivisionError` when `_valid_freq` is 0, before anything
else happens.  On trigger it runs the validation pass: `run_valid` (modelled by
the `score_map` its external collaborators would produce), the improvement
check, and the scheduler notification.  Returns the updated state and whether
a validation pass ran.  `is_root` is the value of `self._is_root_node()`
(always `True` in single-device mode). -/
def valid (s : TrainerState) (is_root : Bool) (score_map : String → ℚ) :
    Except PyErr (TrainerState × Bool) :=
  if s.valid_freq = 0 then
    .error .zeroDivision
  else if (s.current_step + 1) % s.valid_freq = 0 ∧ is_root then
    let r := check_improvement s score_map
    .ok (r.1, true)
  else
    .ok (s, false)

end TrainerKit

/-- Python list slicing `xs[:k]` for an integer bound `k`: a non-negative bound
takes the first `k` elements (clamped to the length); a negative bound drops
`|k|` elements from the end (empty when `|k| ≥ len(xs)`). -/
def pySliceUpto {α : Type} (xs : List α) (k : ℤ) : List α :=
  if 0 ≤ k then xs.take k.toNat else xs.take (xs.length - (-k).toNat)

/-- One example of `TrainerKit._compute_bleu`'s loop body, for row `i`:
`target_len` is the count of positive ids in the target row, the reference is
`tgt_seq[i, 1:target_len-1]`, the hypothesis is truncated at the first literal
`2` if present and to `out_tokens[:target_len-2]` otherwise, an empty
hypothesis scores `0.`, and otherwise the external `smoothed_bleu` collaborator
(passed as `sb`) scores the pair. -/
def exampleBleu (sb : List ℤ → List ℤ → ℚ) (out_row tgt_row : List ℤ) : ℚ :=
  let target_len : ℕ := (tgt_row.filter (fun t => 0 < t)).length
  let ref_tokens := (pySliceUpto tgt_row ((target_len : ℤ) - 1)).drop 1
  let out_tokens :=
    if 2 ∈ out_row then out_row.take (out_row.indexOf 2)
    else pySliceUpto out_row ((target_len : ℤ) - 2)
  if out_tokens = [] then 0 else sb out_tokens ref_tokens

/-- `TrainerKit._compute_bleu(sampled_tokens, tgt_seq)`: scores every row of
the batch with `exampleBleu` and returns the numpy mean (`sum / count`; the
mean of an empty batch, `nan` in numpy, is modelled as `ℚ`'s `0/0 = 0`). -/
def TrainerKit.compute_bleu (sb : List ℤ → List ℤ → ℚ)
    (sampled_tokens tgt_seq : List (List ℤ)) : ℚ :=
  let bleus := (List.range tgt_seq.length).map (fun i =>
    exampleBleu sb (sampled_tokens.getD i []) (tgt_seq.getD i []))
  bleus.sum / (bleus.length : ℚ)

/-- `TrainerKit._clip_grad_norm(self)`: gradients are vectors over ℚ, absent
gradients (`p.grad is None`) are `none`, and the external `torch` Euclidean
norm is the parameter `norm`.  A non-positive threshold is a no-op; otherwise
each present gradient whose norm exceeds the threshold is rescaled in place by
`max_norm / (grad_norm + 1e-6)`. -/
def TrainerKit.clip_grad_norm (clip_norm : ℚ) (norm : List ℚ → ℚ)
    (grads : List (Option (List ℚ))) : List (Option (List ℚ)) :=
  if clip_norm ≤ 0 then grads
  else
    grads.map (fun og =>
      match og with
      | none => none
      | some grad =>
          let grad_norm := norm grad
          if grad_norm > clip_norm then
            some (grad.map (fun x => x * (clip_norm / (grad_norm + 1 / 1000000))))
          else some grad)

/-- One validation batch as `run_valid` sees it: the target tensor, the model's
optional `sampled_tokens` output, and the remaining non-null scalar outputs of
`val_map` (with `sampled_tokens` already removed, as the code deletes it). -/
structure ValidBatch where
  sampled_tokens : Option (List (List ℤ))
  tgt : List (List ℤ)
  val_map : List (String × ℚ)
  deriving Repr

/-- `TrainerKit.run_valid(self)`: accumulates, per key, the negated batch BLEU
(when the model emitted sampled tokens) and every non-null scalar output, then
replaces each key's list by its numpy mean.  Modelled as the total function
giving each key the mean of its accumulated values (a key with no values maps
to `0/0 = 0`). -/
def TrainerKit.run_valid (sb : List ℤ → List ℤ → ℚ) (batches : List ValidBatch) :
    String → ℚ := fun k =>
  let vals := (batches.map (fun b =>
    (match b.sampled_tokens with
     | some st => if k = "bleu" then [-(TrainerKit.compute_bleu sb st b.tgt)] else []
     | none => []) ++
    ((b.val_map.filter (fun p => p.1 = k)).map (fun p => p.2)))).flatten
  vals.sum / (vals.length : ℚ)

/-- The state-mutating `TrainerKit` operations of a run, with the data each
one consumes from its external collaborators (batches, score maps, arguments)
made explicit. -/
inductive TrainerOp where
  | configure (save_path : Option String) (clip_norm : ℚ)
      (n_valid_per_epoch : ℕ) (criteria : String)
  | beginEpoch (epoch : ℕ)
  | beginStep (step : ℕ)
  | save (epoch step : ℕ)
  | load (model_path : Option String)
  | checkImprovement (score_map : String → ℚ)
  | valid (is_root : Bool) (score_map : String → ℚ)

/-- Apply one operation to the trainer state.  A raising call leaves the state
as mutated up to the raise: `configure` keeps its assignments, while `load`
and `valid` raise before any mutation. -/
def applyOp (op : TrainerOp) (s : TrainerState) : TrainerState :=
  match op with
  | .configure sp cn nv cr => (TrainerKit.configure s sp cn nv cr).1
  | .beginEpoch e => { s with current_epoch := e }
  | .beginStep st => { s with current_step := st }
  | .save e st => TrainerKit.save s e st
  | .load p =>
      match TrainerKit.load s p with
      | .ok s2 => s2
      | .error _ => s
  | .checkImprovement sm => (TrainerKit.check_improvement s sm).1
  | .valid ir sm =>
      match TrainerKit.valid s ir sm with
      | .ok r => r.1
      | .error _ => s

/-- Run a sequence of operations left to right. -/
def applyOps (ops : List TrainerOp) (s : TrainerState) : TrainerState :=
  ops.foldl (fun t op => applyOp op t) s

/-- Whether an operation runs the improvement check (`check_improvement`
itself, or `valid`, which calls it on trigger): these are the only operations
allowed to touch `best_criteria`. -/
def TrainerOp.runsImprovementCheck : TrainerOp → Prop
  | .checkImprovement _ => True
  | .valid _ _ => True
  | _ => False

/-! ### Helper lemmas -/

theorem save_best_criteria (s : TrainerState) (e st : ℕ) :
    (TrainerKit.save s e st).best_criteria = s.best_criteria := by
  unfold TrainerKit.save
  cases s.save_path <;> rfl

theorem save_fields (s : TrainerState) (e st : ℕ) :
    (TrainerKit.save s e st).save_path = s.save_path ∧
    (TrainerKit.save s e st).model_state = s.model_state ∧
    (TrainerKit.save s e st).optimizer_state = s.optimizer_state ∧
    (TrainerKit.save s e st).current_epoch = s.current_epoch ∧
    (TrainerKit.save s e st).current_step = s.current_step := by
  unfold TrainerKit.save
  split <;> exact ⟨rfl, rfl, rfl, rfl, rfl⟩

theorem check_improvement_best_le (s : TrainerState) (sm : String → ℚ) :
    (TrainerKit.check_improvement s sm).1.best_criteria ≤ s.best_criteria := by
  unfold TrainerKit.check_improvement
  dsimp only
  split
  · next h =>
      rw [save_best_criteria]
      have habs : 0 ≤ |s.best_criteria| := abs_nonneg _
      nlinarith
  · exact le_refl _

/-- A concrete trainer state used as the starting point of witness theorems:
the attribute values a freshly constructed single-device trainer has after
`__init__` with a 100-batch dataset. -/
def sampleState : TrainerState :=
  { best_criteria := 65535, current_epoch := 0, current_step := 0,
    save_path := none, clip_norm := 5, n_valid_per_epoch := 10,
    criteria := "bleu", valid_freq := 10, n_train_batch := 100,
    model_state := [], optimizer_state := [], disk := [] }

/-! ### Claim theorems -/

/-- C1: `check_improvement` returns the improved result and updates
`best_criteria` to the criteria value `v` exactly when
`v < best - |best| * 0.001`; otherwise it returns the not-improved result and
leaves the whole state (so in particular `best_criteria`) unchanged.  The
threshold is equivalently `best * (1 - 0.001)` for positive `best` and
`best * (1 + 0.001)` for negative `best`. -/
theorem check_improvement_relative_threshold (s : TrainerState) (sm : String → ℚ) :
    (((TrainerKit.check_improvement s sm).2 = true ∧
        (TrainerKit.check_improvement s sm).1.best_criteria = sm s.criteria) ↔
      sm s.criteria < s.best_criteria - |s.best_criteria| * (1 / 1000)) ∧
    (¬ sm s.criteria < s.best_criteria - |s.best_criteria| * (1 / 1000) →
      TrainerKit.check_improvement s sm = (s, false)) ∧
    (0 < s.best_criteria →
      s.best_criteria - |s.best_criteria| * (1 / 1000) =
        s.best_criteria * (1 - 1 / 1000)) ∧
    (s.best_criteria < 0 →
      s.best_criteria - |s.best_criteria| * (1 / 1000) =
        s.best_criteria * (1 + 1 / 1000)) := by
  refine ⟨?_, ?_, ?_, ?_⟩
  · constructor
    · intro ⟨h2, _⟩
      by_contra hlt
      unfold TrainerKit.check_improvement at h2
      rw [if_neg hlt] at h2
      exact Bool.false_ne_true h2
    · intro hlt
      unfold TrainerKit.check_improvement
      rw [if_pos hlt]
      exact ⟨rfl, save_best_criteria _ 0 0⟩
  · intro hlt
    unfold TrainerKit.check_improvement
    rw [if_neg hlt]
  · intro hpos
    rw [abs_of_pos hpos]; ring
  · intro hneg
    rw [abs_of_neg hneg]; ring

/-- C1 witness: with `best = 100` and criteria value `99`, the improvement
fires (`99 < 100 - 0.1`) and the best value becomes `99`. -/
theorem check_improvement_relative_threshold_witness :
    let s : TrainerState :=
      { TrainerKit.init 100 [] [] with criteria := "loss", best_criteria := 100 }
    (TrainerKit.check_improvement s (fun _ => 99)).2 = true ∧
      (TrainerKit.check_improvement s (fun _ => 99)).1.best_criteria = 99 :=
  (check_improvement_relative_threshold _ (fun _ => 99)).1.mpr (by norm_num)

/-- C5: whenever `check_improvement` decides an improvement and a checkpoint
path is configured, the checkpoint it writes records `epoch = 0` and
`step = 0` — the literal arguments of `self.save(0, 0)` — for every value of
the live `current_epoch` and `current_step`, which are not passed through. -/
theorem improvement_checkpoint_records_zero (s : TrainerState) (sm : String → ℚ)
    (p : String) (hp : s.save_path = some p)
    (himp : (TrainerKit.check_improvement s sm).2 = true) :
    diskRead (TrainerKit.check_improvement s sm).1.disk p =
      some ⟨0, 0, s.model_state, s.optimizer_state⟩ := by
  unfold TrainerKit.check_improvement at himp ⊢
  dsimp only at himp ⊢
  split at himp
  · next h =>
      rw [if_pos h]
      dsimp only
      unfold TrainerKit.save
      dsimp only
      rw [hp]
      simp [diskRead]
  · exact absurd himp (by simp)

/-- C5 witness: a trainer at epoch 7, step 42 with path `"ck"` writes a
checkpoint recording epoch 0, step 0 on improvement. -/
theorem improvement_checkpoint_records_zero_witness :
    diskRead (TrainerKit.check_improvement
      { best_criteria := 65535, current_epoch := 7, current_step := 42,
        save_path := some "ck", clip_norm := 5, n_valid_per_epoch := 10,
        criteria := "loss", valid_freq := 10, n_train_batch := 100,
        model_state := [3], optimizer_state := [4], disk := [] }
      (fun _ => -1)).1.disk "ck" = some ⟨0, 0, [3], [4]⟩ :=
  improvement_checkpoint_records_zero _ (fun _ => -1) "ck" rfl (by
    unfold TrainerKit.check_improvement
    dsimp only
    rw [if_pos]
    rw [show |(65535 : ℚ)| = 65535 from abs_of_pos (by norm_num)]
    norm_num)

/-- C6: with a configured checkpoint path, `save(e, s)` followed by `load()`
restores `current_epoch` to `e`, `current_step` to `s`, and the model and
optimizer state to the snapshots taken at save time. -/
theorem save_load_roundtrip (s : TrainerState) (e st : ℕ) (p : String)
    (hp : s.save_path = some p) :
    ∃ s2, TrainerKit.load (TrainerKit.save s e st) none = .ok s2 ∧
      s2.current_epoch = e ∧ s2.current_step = st ∧
      s2.model_state = s.model_state ∧ s2.optimizer_state = s.optimizer_state := by
  refine ⟨{ s with
            disk := ((p, ⟨e, st, s.model_state, s.optimizer_state⟩) :: s.disk),
            current_epoch := e,
            current_step := st }, ?_, rfl, rfl, rfl, rfl⟩
  simp [TrainerKit.load, TrainerKit.save, diskRead, hp]

/-- C10: `configure` raises an assertion failure exactly when the given
criteria is neither `"bleu"` nor `"loss"` (given a positive
validations-per-epoch, so the frequency division itself does not raise), and
regardless of the assertion outcome the configuration fields — save path, clip
threshold, validations-per-epoch, criteria, and the recomputed validation
frequency — have already been overwritten: the failed call is not atomic. -/
theorem configure_assert_non_atomic (s : TrainerState) (sp : Option String)
    (cn : ℚ) (nv : ℕ) (cr : String) (hnv : 0 < nv) :
    ((TrainerKit.configure s sp cn nv cr).2 = some PyErr.assertionError ↔
      ¬(cr = "bleu" ∨ cr = "loss")) ∧
    (TrainerKit.configure s sp cn nv cr).1.save_path = sp ∧
    (TrainerKit.configure s sp cn nv cr).1.clip_norm = cn ∧
    (TrainerKit.configure s sp cn nv cr).1.n_valid_per_epoch = nv ∧
    (TrainerKit.configure s sp cn nv cr).1.criteria = cr ∧
    (TrainerKit.configure s sp cn nv cr).1.valid_freq = s.n_train_batch / nv := by
  unfold TrainerKit.configure
  rw [if_neg (Nat.pos_iff_ne_zero.mp hnv)]
  by_cases hcr : cr = "bleu" ∨ cr = "loss"
  · rw [if_pos hcr]
    exact ⟨by simp [hcr], rfl, rfl, rfl, rfl, rfl⟩
  · rw [if_neg hcr]
    exact ⟨by simp [hcr], rfl, rfl, rfl, rfl, rfl⟩

/-- C10 witness: `configure(save_path="x", clip_norm=3, n_valid_per_epoch=4,
criteria="rouge")` raises the assertion failure, yet every field, including
the recomputed frequency `100 / 4 = 25`, holds the new value. -/
theorem configure_assert_non_atomic_witness :
    ((TrainerKit.configure sampleState (some "x") 3 4 "rouge").2 =
        some PyErr.assertionError ↔
      ¬("rouge" = "bleu" ∨ "rouge" = "loss")) ∧
    (TrainerKit.configure sampleState (some "x") 3 4 "rouge").1.save_path =
      some "x" ∧
    (TrainerKit.configure sampleState (some "x") 3 4 "rouge").1.clip_norm = 3 ∧
    (TrainerKit.configure sampleState (some "x") 3 4 "rouge").1.n_valid_per_epoch
      = 4 ∧
    (TrainerKit.configure sampleState (some "x") 3 4 "rouge").1.criteria =
      "rouge" ∧
    (TrainerKit.configure sampleState (some "x") 3 4 "rouge").1.valid_freq =
      sampleState.n_train_batch / 4 :=
  configure_assert_non_atomic sampleState (some "x") 3 4 "rouge" (by norm_num)

/-- C2: with a positive validation frequency equal to
`floor(n_train_batch / n_valid_per_epoch)`, `valid()` runs a validation pass
exactly when `(current_step + 1) mod validation_frequency == 0` and this
participant is the root; otherwise it leaves the state unchanged and runs no
pass. -/
theorem valid_trigger_periodicity (s : TrainerState) (is_root : Bool)
    (sm : String → ℚ)
    (hfreq : s.valid_freq = s.n_train_batch / s.n_valid_per_epoch)
    (hpos : 0 < s.valid_freq) :
    ((∃ s2, TrainerKit.valid s is_root sm = .ok (s2, true)) ↔
      ((s.current_step + 1) % (s.n_train_batch / s.n_valid_per_epoch) = 0 ∧
        is_root = true)) ∧
    (¬((s.current_step + 1) % s.valid_freq = 0 ∧ is_root = true) →
      TrainerKit.valid s is_root sm = .ok (s, false)) := by
  unfold TrainerKit.valid
  rw [if_neg (Nat.pos_iff_ne_zero.mp hpos), ← hfreq]
  by_cases hc : (s.current_step + 1) % s.valid_freq = 0 ∧ is_root = true
  · rw [if_pos hc]
    exact ⟨⟨fun _ => hc, fun _ => ⟨_, rfl⟩⟩, fun hn => absurd hc hn⟩
  · rw [if_neg hc]
    refine ⟨⟨?_, fun h => absurd h hc⟩, fun _ => rfl⟩
    intro ⟨s2, h2⟩
    simp at h2

/-- C2 witness: `n_train_batch = 100`, `n_valid_per_epoch = 10`, so the
frequency is `10`, and at step 9 on the root a validation pass runs. -/
theorem valid_trigger_periodicity_witness :
    ∃ s2, TrainerKit.valid { sampleState with current_step := 9 } true
      (fun _ => -1) = .ok (s2, true) :=
  (valid_trigger_periodicity { sampleState with current_step := 9 } true
    (fun _ => -1) rfl (by decide)).1.mpr ⟨by decide, rfl⟩

/-- C7 counterexample: a trainer constructed on a 5-batch dataset gets the
default configuration's `validation_frequency = floor(5 / 10) = 0`, and
`valid()` then raises `ZeroDivisionError` at the modulus instead of returning
normally — refuting the claim that a zero frequency is a legal, non-raising
configuration under which `valid()` simply never triggers. -/
theorem valid_zero_freq_cex :
    (TrainerKit.init 5 [] []).valid_freq = 0 ∧
    TrainerKit.valid (TrainerKit.init 5 [] []) true (fun _ => 0) =
      .error PyErr.zeroDivision := ⟨rfl, rfl⟩

/-- C7 amended: whenever `validation_frequency = 0`, `valid()` raises
`ZeroDivisionError` (from `(current_step + 1) % 0`) before doing anything
else; a zero frequency is not a silently-skipping degenerate configuration. -/
theorem valid_zero_freq_raises (s : TrainerState) (is_root : Bool)
    (sm : String → ℚ) (h : s.valid_freq = 0) :
    TrainerKit.valid s is_root sm = .error PyErr.zeroDivision := by
  unfold TrainerKit.valid
  rw [if_pos h]

/-- C7 amended witness: the 5-batch default-configured trainer raises. -/
theorem valid_zero_freq_raises_witness :
    TrainerKit.valid { sampleState with valid_freq := 0 } true (fun _ => 0) =
      .error PyErr.zeroDivision :=
  valid_zero_freq_raises { sampleState with valid_freq := 0 } true
    (fun _ => 0) rfl

/-- C3: `_clip_grad_norm` with threshold `t ≤ 0` is a no-op; otherwise the
clip is per parameter: each present gradient whose norm `g = norm grad`
exceeds `t` becomes the original scaled by `t / (g + 1e-6)`, every other
present gradient is unchanged, and absent gradients stay absent — no joint
norm over all parameters is ever formed (the output at index `i` depends only
on the input at index `i`). -/
theorem clip_grad_norm_per_param (t : ℚ) (norm : List ℚ → ℚ)
    (grads : List (Option (List ℚ))) :
    (t ≤ 0 → TrainerKit.clip_grad_norm t norm grads = grads) ∧
    (TrainerKit.clip_grad_norm t norm grads).length = grads.length ∧
    (0 < t → ∀ (i : ℕ) (grad : List ℚ), grads[i]? = some (some grad) →
      (TrainerKit.clip_grad_norm t norm grads)[i]? = some (some (
        if t < norm grad then
          grad.map (fun x => x * (t / (norm grad + 1 / 1000000)))
        else grad))) ∧
    (0 < t → ∀ i : ℕ, grads[i]? = some none →
      (TrainerKit.clip_grad_norm t norm grads)[i]? = some none) := by
  unfold TrainerKit.clip_grad_norm
  by_cases ht : t ≤ 0
  · rw [if_pos ht]
    exact ⟨fun _ => rfl, rfl,
      fun h0 => absurd ht (not_le.mpr h0),
      fun h0 => absurd ht (not_le.mpr h0)⟩
  · rw [if_neg ht]
    refine ⟨fun hle => absurd hle ht, List.length_map _ _, ?_, ?_⟩
    · intro _ i grad hg
      rw [List.getElem?_map, hg]
      dsimp only [Option.map]
      by_cases hn : t < norm grad
      · rw [if_pos hn, if_pos hn]
      · rw [if_neg hn, if_neg hn]
    · intro _ i hg
      rw [List.getElem?_map, hg]
      rfl

/-- C3 witness: with threshold 5 and the list-sum standing in for the external
norm, the gradient `[3, 4]` (norm 7 > 5) is rescaled by `5 / (7 + 1e-6)`, the
gradient `[1, 1]` (norm 2 ≤ 5) is unchanged, and the absent gradient stays
absent; with threshold `-1` the call is a no-op. -/
theorem clip_grad_norm_per_param_witness :
    ((-1 : ℚ) ≤ 0 →
      TrainerKit.clip_grad_norm (-1) (fun g => g.sum)
        [some [3, 4], none, some [1, 1]] = [some [3, 4], none, some [1, 1]]) ∧
    ((TrainerKit.clip_grad_norm 5 (fun g => g.sum)
        [some [3, 4], none, some [1, 1]])[0]? = some (some (
      if (5 : ℚ) < (fun (g : List ℚ) => g.sum) [3, 4] then
        [(3 : ℚ), 4].map (fun x =>
          x * (5 / ((fun (g : List ℚ) => g.sum) [3, 4] + 1 / 1000000)))
      else [3, 4]))) ∧
    ((TrainerKit.clip_grad_norm 5 (fun g => g.sum)
        [some [3, 4], none, some [1, 1]])[1]? = some none) :=
  ⟨(clip_grad_norm_per_param (-1) (fun g => g.sum)
      [some [3, 4], none, some [1, 1]]).1,
   (clip_grad_norm_per_param 5 (fun g => g.sum)
      [some [3, 4], none, some [1, 1]]).2.2.1 (by norm_num) 0 [3, 4] rfl,
   (clip_grad_norm_per_param 5 (fun g => g.sum)
      [some [3, 4], none, some [1, 1]]).2.2.2 (by norm_num) 1 rfl⟩

/-- The hypothesis truncation of C4, written as the claim states it: cut at
the first occurrence of token id 2, dropping that token and everything after
it (`takeWhile (· ≠ 2)`); when 2 is absent, truncate to the reference span
length via the Python slice `out_tokens[:target_len - 2]`; an empty hypothesis
scores 0, otherwise the external smoothed BLEU scores it against the
reference span `tgt_row[1:target_len - 1]`. -/
def exampleBleuClaim (sb : List ℤ → List ℤ → ℚ) (out_row tgt_row : List ℤ) : ℚ :=
  let target_len : ℕ := (tgt_row.filter (fun t => 0 < t)).length
  let ref_tokens := (pySliceUpto tgt_row ((target_len : ℤ) - 1)).drop 1
  let hyp :=
    if 2 ∈ out_row then out_row.takeWhile (fun x => x ≠ 2)
    else pySliceUpto out_row ((target_len : ℤ) - 2)
  if hyp = [] then 0 else sb hyp ref_tokens

theorem take_indexOf_eq_takeWhile (l : List ℤ) (a : ℤ) :
    l.take (l.indexOf a) = l.takeWhile (fun x => x ≠ a) := by
  induction l with
  | nil => rfl
  | cons x xs ih =>
      by_cases hx : x = a
      · subst hx
        rw [List.indexOf_cons_self]
        simp [List.takeWhile_cons]
      · rw [List.indexOf_cons_ne _ hx]
        rw [List.take_succ_cons, List.takeWhile_cons, if_pos (by simp [hx]), ih]

/-- C4: `_compute_bleu` scores each example by truncating the hypothesis at
the first occurrence of token id 2 (dropping that token and everything after
it), or to the reference span length when 2 is absent; an empty truncated
hypothesis scores 0.0 rather than erroring, otherwise the smoothed BLEU of
the truncated hypothesis against the reference span is taken; the result is
the mean over the batch.  The second conjunct identifies the absent-case
Python slice with a plain `take` of `target_len - 2` whenever
`target_len ≥ 2`. -/
theorem compute_bleu_truncation_mean (sb : List ℤ → List ℤ → ℚ)
    (sampled tgt : List (List ℤ)) :
    (TrainerKit.compute_bleu sb sampled tgt =
      ((List.range tgt.length).map (fun i =>
        exampleBleuClaim sb (sampled.getD i []) (tgt.getD i []))).sum /
        (tgt.length : ℚ)) ∧
    (∀ (out_row : List ℤ) (tl : ℕ), 2 ≤ tl →
      pySliceUpto out_row ((tl : ℤ) - 2) = out_row.take (tl - 2)) := by
  constructor
  · unfold TrainerKit.compute_bleu
    simp only [exampleBleu, exampleBleuClaim, take_indexOf_eq_takeWhile,
      List.length_map, List.length_range]
  · intro out_row tl htl
    unfold pySliceUpto
    rw [if_pos (by omega)]
    congr 1
    omega

/-- C4 witness: with the spec's example, hypothesis `[5,6,7,2,9]` against the
target row `[1,5,6,7,2]` (reference span `[5,6,7]`) truncates to `[5,6,7]`
and scores `sb [5,6,7] [5,6,7] = 1` under an equality-indicator BLEU, while
the hypothesis `[2,8]` truncates to `[]` and scores `0.0`; the batch mean is
`1/2`. -/
theorem compute_bleu_truncation_mean_witness :
    TrainerKit.compute_bleu (fun o r => if o = r then 1 else 0)
      [[5, 6, 7, 2, 9], [2, 8]] [[1, 5, 6, 7, 2], [1, 5, 2]] = 1 / 2 ∧
    pySliceUpto ([9, 9, 9] : List ℤ) ((2 : ℤ) - 2) = [9, 9, 9].take (2 - 2) := by
  constructor
  · rw [(compute_bleu_truncation_mean (fun o r => if o = r then 1 else 0)
      [[5, 6, 7, 2, 9], [2, 8]] [[1, 5, 6, 7, 2], [1, 5, 2]]).1]
    norm_num [exampleBleuClaim, pySliceUpto, List.range_succ]
    rw [if_neg (by simp)]
  · exact (compute_bleu_truncation_mean (fun o r => if o = r then 1 else 0)
      [] []).2 [9, 9, 9] 2 (by norm_num)

/-- C6 witness: saving `(epoch, step) = (3, 17)` at path `"ck"` and loading
restores exactly those counters and the saved snapshots. -/
theorem save_load_roundtrip_witness :
    ∃ s2,
      TrainerKit.load
        (TrainerKit.save
          { TrainerKit.init 100 [5] [6] with save_path := some "ck" } 3 17) none =
        .ok s2 ∧
      s2.current_epoch = 3 ∧ s2.current_step = 17 ∧
      s2.model_state = [5] ∧ s2.optimizer_state = [6] :=
  save_load_roundtrip _ 3 17 "ck" rfl

theorem configure_best (s : TrainerState) (sp : Option String) (cn : ℚ)
    (nv : ℕ) (cr : String) :
    (TrainerKit.configure s sp cn nv cr).1.best_criteria = s.best_criteria := by
  unfold TrainerKit.configure
  dsimp only
  by_cases h0 : nv = 0
  · rw [if_pos h0]
  · rw [if_neg h0]
    by_cases hcr : cr = "bleu" ∨ cr = "loss"
    · rw [if_pos hcr]
    · rw [if_neg hcr]

theorem load_ok_best (s : TrainerState) (p : Option String) (s2 : TrainerState)
    (h : TrainerKit.load s p = .ok s2) : s2.best_criteria = s.best_criteria := by
  unfold TrainerKit.load at h
  dsimp only at h
  split at h
  · exact absurd h (by simp)
  · split at h
    · exact absurd h (by simp)
    · injection h with h2
      rw [← h2]

theorem applyOp_load_best (t : TrainerState) (p : Option String) :
    (applyOp (TrainerOp.load p) t).best_criteria = t.best_criteria := by
  show (match TrainerKit.load t p with
    | .ok s2 => s2
    | .error _ => t).best_criteria = t.best_criteria
  cases h : TrainerKit.load t p with
  | ok s2 => exact load_ok_best t p s2 h
  | error e => rfl

theorem applyOp_best_le (op : TrainerOp) (t : TrainerState) :
    (applyOp op t).best_criteria ≤ t.best_criteria := by
  cases op with
  | configure sp cn nv cr => exact le_of_eq (configure_best t sp cn nv cr)
  | beginEpoch e => exact le_refl _
  | beginStep st => exact le_refl _
  | save e st => exact le_of_eq (save_best_criteria t e st)
  | load p => exact le_of_eq (applyOp_load_best t p)
  | checkImprovement sm => exact check_improvement_best_le t sm
  | valid ir sm =>
      show (match TrainerKit.valid t ir sm with
        | .ok r => r.1
        | .error _ => t).best_criteria ≤ t.best_criteria
      cases h : TrainerKit.valid t ir sm with
      | error e => exact le_refl _
      | ok r =>
          unfold TrainerKit.valid at h
          split at h
          · exact absurd h (by simp)
          · split at h
            · injection h with h2
              rw [← h2]
              exact check_improvement_best_le t sm
            · injection h with h2
              rw [← h2]

/-- C8: `best_criteria` is monotonically non-increasing across every sequence
of `TrainerKit` operations within a run; every operation other than the
improvement check (run by `check_improvement`, also on behalf of `valid`)
leaves it exactly unchanged, and `check_improvement` either leaves the state
untouched (returning not-improved) or replaces `best_criteria` with a
strictly smaller value (returning improved). -/
theorem best_criteria_nonincreasing (ops : List TrainerOp) (s : TrainerState) :
    (applyOps ops s).best_criteria ≤ s.best_criteria ∧
    (∀ (op : TrainerOp) (t : TrainerState), ¬ op.runsImprovementCheck →
      (applyOp op t).best_criteria = t.best_criteria) ∧
    (∀ (t : TrainerState) (sm : String → ℚ),
      TrainerKit.check_improvement t sm = (t, false) ∨
      ((TrainerKit.check_improvement t sm).1.best_criteria < t.best_criteria ∧
        (TrainerKit.check_improvement t sm).2 = true)) := by
  refine ⟨?_, ?_, ?_⟩
  · induction ops generalizing s with
    | nil => exact le_refl _
    | cons op rest ih =>
        exact le_trans (ih (applyOp op s)) (applyOp_best_le op s)
  · intro op t hni
    cases op with
    | configure sp cn nv cr => exact configure_best t sp cn nv cr
    | beginEpoch e => rfl
    | beginStep st => rfl
    | save e st => exact save_best_criteria t e st
    | load p => exact applyOp_load_best t p
    | checkImprovement sm => exact absurd trivial hni
    | valid ir sm => exact absurd trivial hni
  · intro t sm
    unfold TrainerKit.check_improvement
    dsimp only
    by_cases hc : sm t.criteria < t.best_criteria - |t.best_criteria| * (1 / 1000)
    · right
      rw [if_pos hc]
      refine ⟨?_, rfl⟩
      rw [save_best_criteria]
      have habs := abs_nonneg t.best_criteria
      dsimp only
      nlinarith
    · left
      rw [if_neg hc]

theorem list_sum_nonpos (l : List ℚ) (h : ∀ x ∈ l, x ≤ 0) : l.sum ≤ 0 := by
  induction l with
  | nil => exact le_of_eq List.sum_nil
  | cons x xs ih =>
      rw [List.sum_cons]
      have hx := h x (List.mem_cons_self x xs)
      have hxs := ih (fun y hy => h y (List.mem_cons_of_mem x hy))
      linarith

theorem compute_bleu_nonneg (sb : List ℤ → List ℤ → ℚ)
    (hsb : ∀ o r, 0 ≤ sb o r) (st tgt : List (List ℤ)) :
    0 ≤ TrainerKit.compute_bleu sb st tgt := by
  unfold TrainerKit.compute_bleu
  dsimp only
  apply div_nonneg
  · apply List.sum_nonneg
    intro x hx
    rw [List.mem_map] at hx
    obtain ⟨i, _, rfl⟩ := hx
    unfold exampleBleu
    dsimp only
    have key : ∀ hyp ref : List ℤ, 0 ≤ (if hyp = [] then (0 : ℚ) else sb hyp ref) := by
      intro hyp ref
      split
      · exact le_refl _
      · exact hsb _ _
    exact key _ _
  · exact Nat.cast_nonneg _

theorem run_valid_bleu_nonpos (sb : List ℤ → List ℤ → ℚ)
    (hsb : ∀ o r, 0 ≤ sb o r) (batches : List ValidBatch)
    (hres : ∀ b ∈ batches, ∀ pr ∈ b.val_map, pr.1 ≠ "bleu") :
    TrainerKit.run_valid sb batches "bleu" ≤ 0 := by
  unfold TrainerKit.run_valid
  dsimp only
  rw [div_nonpos_iff]
  right
  refine ⟨?_, Nat.cast_nonneg _⟩
  apply list_sum_nonpos
  intro x hx
  rw [List.mem_flatten] at hx
  obtain ⟨l, hl, hxl⟩ := hx
  rw [List.mem_map] at hl
  obtain ⟨b, hb, rfl⟩ := hl
  rw [List.mem_append] at hxl
  rcases hxl with h1 | h2
  · split at h1
    · next st heq =>
        rw [if_pos rfl] at h1
        rw [List.mem_singleton] at h1
        subst h1
        exact neg_nonpos.mpr (compute_bleu_nonneg sb hsb st b.tgt)
    · next heq => simp at h1
  · rw [List.mem_map] at h2
    obtain ⟨pr, hpr, rfl⟩ := h2
    rw [List.mem_filter] at hpr
    exact absurd (of_decide_eq_true hpr.2) (hres b hb pr hpr.1)

/-- C9 counterexample: an averaged loss reachable from `run_valid` is not
bounded by the 65535 sentinel.  With a single validation batch whose model
output map is `{"loss": 70000}`, `run_valid` yields criteria value 70000 for
the configured criteria `"loss"`; 70000 is not smaller than the freshly
constructed trainer's `best_criteria = 65535`, and the first
`check_improvement` returns not-improved — refuting both halves of the claim
that every value reachable from `run_valid` is below the sentinel and that
the first validation always counts as an improvement. -/
theorem init_sentinel_cex :
    TrainerKit.run_valid (fun _ _ => 0) [⟨none, [], [("loss", 70000)]⟩] "loss" =
      70000 ∧
    (TrainerKit.configure (TrainerKit.init 100 [] [])
      none 5 10 "loss").1.best_criteria = 65535 ∧
    ¬ TrainerKit.run_valid (fun _ _ => 0) [⟨none, [], [("loss", 70000)]⟩] "loss"
        < (TrainerKit.configure (TrainerKit.init 100 [] [])
            none 5 10 "loss").1.best_criteria ∧
    (TrainerKit.check_improvement
      (TrainerKit.configure (TrainerKit.init 100 [] []) none 5 10 "loss").1
      (TrainerKit.run_valid (fun _ _ => 0) [⟨none, [], [("loss", 70000)]⟩])).2 =
      false := by
  refine ⟨by norm_num [TrainerKit.run_valid], rfl, ?_, ?_⟩
  · rw [show (TrainerKit.configure (TrainerKit.init 100 [] [])
        none 5 10 "loss").1.best_criteria = (65535 : ℚ) from rfl]
    rw [show TrainerKit.run_valid (fun _ _ => 0)
        [⟨none, [], [("loss", 70000)]⟩] "loss" = (70000 : ℚ) from by
      norm_num [TrainerKit.run_valid]]
    norm_num
  · unfold TrainerKit.check_improvement
    dsimp only
    rw [if_neg]
    rw [show (TrainerKit.configure (TrainerKit.init 100 [] [])
        none 5 10 "loss").1.criteria = "loss" from rfl]
    rw [show (TrainerKit.configure (TrainerKit.init 100 [] [])
        none 5 10 "loss").1.best_criteria = (65535 : ℚ) from rfl]
    rw [show TrainerKit.run_valid (fun _ _ => 0)
        [⟨none, [], [("loss", 70000)]⟩] "loss" = (70000 : ℚ) from by
      norm_num [TrainerKit.run_valid]]
    rw [show |(65535 : ℚ)| = 65535 from abs_of_pos (by norm_num)]
    norm_num

/-- C9 amended: the initial `best_criteria` is the sentinel 65535.  Every
negated-BLEU criteria value reachable from `run_valid` — given a nonnegative
external smoothed BLEU and model output maps that do not themselves use the
reserved key `"bleu"` — is at most 0, hence below the sentinel's improvement
threshold, so under the default `"bleu"` criteria the first validation counts
as an improvement and records its score; averaged losses, by contrast, are
unbounded model outputs and can exceed the sentinel (see the
counterexample), so the claim does not hold for the `"loss"` criteria. -/
theorem first_valid_improves_bleu (n_train : ℕ) (ms os : List ℚ)
    (sb : List ℤ → List ℤ → ℚ) (hsb : ∀ o r, 0 ≤ sb o r)
    (batches : List ValidBatch)
    (hres : ∀ b ∈ batches, ∀ pr ∈ b.val_map, pr.1 ≠ "bleu") :
    TrainerKit.run_valid sb batches (TrainerKit.init n_train ms os).criteria
      ≤ 0 ∧
    (TrainerKit.check_improvement (TrainerKit.init n_train ms os)
      (TrainerKit.run_valid sb batches)).2 = true ∧
    (TrainerKit.check_improvement (TrainerKit.init n_train ms os)
      (TrainerKit.run_valid sb batches)).1.best_criteria =
      TrainerKit.run_valid sb batches "bleu" := by
  have hcrit : (TrainerKit.init n_train ms os).criteria = "bleu" := rfl
  have hbest : (TrainerKit.init n_train ms os).best_criteria = 65535 := rfl
  have hv : TrainerKit.run_valid sb batches "bleu" ≤ 0 :=
    run_valid_bleu_nonpos sb hsb batches hres
  have hcond : TrainerKit.run_valid sb batches
      (TrainerKit.init n_train ms os).criteria <
      (TrainerKit.init n_train ms os).best_criteria -
        |(TrainerKit.init n_train ms os).best_criteria| * (1 / 1000) := by
    rw [hcrit, hbest]
    rw [show |(65535 : ℚ)| = 65535 from abs_of_pos (by norm_num)]
    linarith
  refine ⟨by rw [hcrit]; exact hv, ?_, ?_⟩
  · unfold TrainerKit.check_improvement
    dsimp only
    rw [if_pos hcond]
  · unfold TrainerKit.check_improvement
    dsimp only
    rw [if_pos hcond]
    dsimp only
    rw [save_best_criteria]
    rw [hcrit]

/-- C9 amended witness: with the constant smoothed BLEU `1/2` and one batch
carrying sampled tokens and a `"loss"` output, the bleu criteria value is
nonpositive and the freshly constructed trainer's first improvement check
fires. -/
theorem first_valid_improves_bleu_witness :
    TrainerKit.run_valid (fun _ _ => 1 / 2)
      [⟨some [[5, 2]], [[1, 5, 2]], [("loss", 7)]⟩]
      (TrainerKit.init 100 [] []).criteria ≤ 0 ∧
    (TrainerKit.check_improvement (TrainerKit.init 100 [] [])
      (TrainerKit.run_valid (fun _ _ => 1 / 2)
        [⟨some [[5, 2]], [[1, 5, 2]], [("loss", 7)]⟩])).2 = true :=
  ⟨(first_valid_improves_bleu 100 [] [] (fun _ _ => 1 / 2)
      (fun _ _ => by norm_num) [⟨some [[5, 2]], [[1, 5, 2]], [("loss", 7)]⟩]
      (by simp)).1,
   (first_valid_improves_bleu 100 [] [] (fun _ _ => 1 / 2)
      (fun _ _ => by norm_num) [⟨some [[5, 2]], [[1, 5, 2]], [("loss", 7)]⟩]
      (by simp)).2.1⟩

/-- C8 witness: a run of begin-step, a triggering validation (which strictly
improves), and a checkpoint save never increases `best_criteria`; a plain
begin-step leaves it unchanged. -/
theorem best_criteria_nonincreasing_witness :
    (applyOps [TrainerOp.beginStep 9, TrainerOp.valid true (fun _ => -1),
       TrainerOp.save 1 2] sampleState).best_criteria ≤
      sampleState.best_criteria ∧
    (applyOp (TrainerOp.beginStep 3) sampleState).best_criteria =
      sampleState.best_criteria :=
  ⟨(best_criteria_nonincreasing [TrainerOp.beginStep 9,
      TrainerOp.valid true (fun _ => -1), TrainerOp.save 1 2] sampleState).1,
   (best_criteria_nonincreasing [] sampleState).2.1 (TrainerOp.beginStep 3)
     sampleState not_false⟩

end Nmtlab
